import Mathlib

/-!
Shallow embedding of the azure-legal-document-chatbot ingestion pipeline.

The Python sources embedded here:
  - src/main.py        (LegalDocumentChatbot: id generation, text extraction,
                        per-file and per-directory ingestion)
  - src/cognitive_search.py (DocumentSearchIndex: index ensure/upsert/search/get/count)
  - src/blob_storage.py (DocumentStorage: container ensure, directory upload)
  - src/mock_storage.py (MockDocumentStorage)
  - src/config.py      (Config validation)

External Azure SDK calls are modelled as explicit parameters (Except-valued
effects) or as small state machines following the service's documented
semantics (create returns an already-exists error when the resource exists;
document upload upserts by the key field).  Python exceptions are modelled
with Except; a try/except block becomes a match on the Except value.
-/

namespace Chatbot

/-! ## Python string/path helpers used by the sources -/

/-- ASCII lowercasing of one character (the fragment of Python str.lower
relevant to extensions). -/
def lowerChar (c : Char) : Char :=
  if 65 ≤ c.toNat ∧ c.toNat ≤ 90 then Char.ofNat (c.toNat + 32) else c

/-- Python str.lower restricted to ASCII. -/
def strLower (s : String) : String := ⟨s.data.map lowerChar⟩

/-- Python str.endswith. -/
def strEndsWith (s suffix : String) : Bool := suffix.data.isSuffixOf s.data

/-- os.path.basename: the part of the path after the last slash. -/
def basename (p : String) : String :=
  ⟨p.data.foldl (fun acc c => if c = '/' then [] else acc ++ [c]) []⟩

/-- os.path.splitext(p)[1] for a plain filename (no directory separator):
the extension starting at the last dot, except that a dot-run at the very
start of the name never begins an extension (CPython genericpath._splitext). -/
def extOf (name : String) : String :=
  let cs := name.data
  match cs.reverse.findIdx? (· = '.') with
  | none => ""
  | some k =>
      let dotIndex := cs.length - 1 - k
      if (cs.take dotIndex).any (· ≠ '.') then ⟨cs.drop dotIndex⟩ else ""

/-- UTF-8 encoding of one character, as byte values (Python str.encode). -/
def utf8EncodeCharNat (c : Char) : List Nat :=
  let n := c.toNat
  if n < 128 then [n]
  else if n < 2048 then [192 + n / 64, 128 + n % 64]
  else if n < 65536 then [224 + n / 4096, 128 + (n / 64) % 64, 128 + n % 64]
  else [240 + n / 262144, 128 + (n / 4096) % 64, 128 + (n / 64) % 64, 128 + n % 64]

/-- UTF-8 encoding of a string as a byte list. -/
def utf8Encode (s : String) : List Nat := s.data.flatMap utf8EncodeCharNat

/-! ## MD5 (hashlib.md5(...).hexdigest()), over byte lists

32-bit words are Nat values kept below 2^32 by explicit reduction mod
4294967296. -/

/-- MD5 per-round sine-derived constants (RFC 1321 T table). -/
def md5K (i : Nat) : Nat :=
  [0xd76aa478, 0xe8c7b756, 0x242070db, 0xc1bdceee,
   0xf57c0faf, 0x4787c62a, 0xa8304613, 0xfd469501,
   0x698098d8, 0x8b44f7af, 0xffff5bb1, 0x895cd7be,
   0x6b901122, 0xfd987193, 0xa679438e, 0x49b40821,
   0xf61e2562, 0xc040b340, 0x265e5a51, 0xe9b6c7aa,
   0xd62f105d, 0x02441453, 0xd8a1e681, 0xe7d3fbc8,
   0x21e1cde6, 0xc33707d6, 0xf4d50d87, 0x455a14ed,
   0xa9e3e905, 0xfcefa3f8, 0x676f02d9, 0x8d2a4c8a,
   0xfffa3942, 0x8771f681, 0x6d9d6122, 0xfde5380c,
   0xa4beea44, 0x4bdecfa9, 0xf6bb4b60, 0xbebfbc70,
   0x289b7ec6, 0xeaa127fa, 0xd4ef3085, 0x04881d05,
   0xd9d4d039, 0xe6db99e5, 0x1fa27cf8, 0xc4ac5665,
   0xf4292244, 0x432aff97, 0xab9423a7, 0xfc93a039,
   0x655b59c3, 0x8f0ccc92, 0xffeff47d, 0x85845dd1,
   0x6fa87e4f, 0xfe2ce6e0, 0xa3014314, 0x4e0811a1,
   0xf7537e82, 0xbd3af235, 0x2ad7d2bb, 0xeb86d391].getD i 0

/-- MD5 per-round left-rotation amounts. -/
def md5S (i : Nat) : Nat :=
  [7, 12, 17, 22, 7, 12, 17, 22, 7, 12, 17, 22, 7, 12, 17, 22,
   5, 9, 14, 20, 5, 9, 14, 20, 5, 9, 14, 20, 5, 9, 14, 20,
   4, 11, 16, 23, 4, 11, 16, 23, 4, 11, 16, 23, 4, 11, 16, 23,
   6, 10, 15, 21, 6, 10, 15, 21, 6, 10, 15, 21, 6, 10, 15, 21].getD i 0

/-- 32-bit left rotation on Nat words below 2^32. -/
def rotl32 (x s : Nat) : Nat :=
  ((x <<< s) % 4294967296) ||| (x >>> (32 - s))

/-- The 32-bit word at index g of a 64-byte block, little-endian. -/
def wordAt (block : List Nat) (g : Nat) : Nat :=
  block.getD (4 * g) 0 + 256 * block.getD (4 * g + 1) 0 +
    65536 * block.getD (4 * g + 2) 0 + 16777216 * block.getD (4 * g + 3) 0

/-- One MD5 round step on the state (a, b, c, d). -/
def md5Step (block : List Nat) (st : Nat × Nat × Nat × Nat) (i : Nat) :
    Nat × Nat × Nat × Nat :=
  let (a, b, c, d) := st
  let f :=
    if i < 16 then (b &&& c) ||| ((4294967295 ^^^ b) &&& d)
    else if i < 32 then (d &&& b) ||| ((4294967295 ^^^ d) &&& c)
    else if i < 48 then b ^^^ c ^^^ d
    else c ^^^ (b ||| (4294967295 ^^^ d))
  let g :=
    if i < 16 then i
    else if i < 32 then (5 * i + 1) % 16
    else if i < 48 then (3 * i + 5) % 16
    else (7 * i) % 16
  let sum := (f + a + md5K i + wordAt block g) % 4294967296
  (d, (b + rotl32 sum (md5S i)) % 4294967296, b, c)

/-- MD5 compression of one 64-byte block into the running state. -/
def md5ProcessBlock (st : Nat × Nat × Nat × Nat) (block : List Nat) :
    Nat × Nat × Nat × Nat :=
  let (a2, b2, c2, d2) := (List.range 64).foldl (md5Step block) st
  ((st.1 + a2) % 4294967296, (st.2.1 + b2) % 4294967296,
   (st.2.2.1 + c2) % 4294967296, (st.2.2.2 + d2) % 4294967296)

/-- Split a byte list into 64-byte chunks (fuel-based structural recursion;
the fuel is an upper bound on the number of chunks). -/
def chunks64 : Nat → List Nat → List (List Nat)
  | 0, _ => []
  | _ + 1, [] => []
  | fuel + 1, l => l.take 64 :: chunks64 fuel (l.drop 64)

/-- One lowercase hexadecimal digit. -/
def hexDigit (n : Nat) : Char :=
  if n < 10 then Char.ofNat (48 + n) else Char.ofNat (87 + n)

/-- Two lowercase hex digits of a byte. -/
def byteToHex (b : Nat) : List Char := [hexDigit (b / 16), hexDigit (b % 16)]

/-- Hex rendering of a 32-bit word, little-endian byte order. -/
def wordToHexLE (w : Nat) : List Char :=
  byteToHex (w % 256) ++ byteToHex (w / 256 % 256) ++
    byteToHex (w / 65536 % 256) ++ byteToHex (w / 16777216 % 256)

/-- MD5 hex digest of a byte list (hashlib.md5(bytes).hexdigest()). -/
def md5Hex (msg : List Nat) : String :=
  let bitLen := (8 * msg.length) % 18446744073709551616
  let zeros := (119 - msg.length % 64) % 64
  let padded := msg ++ 128 :: List.replicate zeros 0 ++
    (List.range 8).map (fun i => (bitLen >>> (8 * i)) % 256)
  let st := (chunks64 (padded.length + 1) padded).foldl md5ProcessBlock
    (1732584193, 4023233417, 2562383102, 271733878)
  String.mk (wordToHexLE st.1 ++ wordToHexLE st.2.1 ++
    wordToHexLE st.2.2.1 ++ wordToHexLE st.2.2.2)

example : md5Hex (utf8Encode "") = "d41d8cd98f00b204e9800998ecf8427e" := by decide

example : md5Hex (utf8Encode "abc") = "900150983cd24fb0d6963f7d28e17f72" := by decide

/-! ## Data model: Python dicts for document records -/

/-- A field value of a document record (the value types occurring in
`document_data` in main.py; upload_date/summary/etc. are strings,
file_size an integer, keywords a list of strings). -/
inductive Val where
  | str : String → Val
  | num : Nat → Val
  | strList : List String → Val
deriving DecidableEq

/-- A document record: a Python dict as an ordered association list. -/
abbrev Record := List (String × Val)

/-- Python `d[k]` lookup / `k in d` support. -/
def getField : Record → String → Option Val
  | [], _ => none
  | (k, v) :: rest, key => if k = key then some v else getField rest key

/-- Python `k in d`. -/
def hasField (r : Record) (k : String) : Bool := (getField r k).isSome

/-! ## Azure Cognitive Search backend model

The remote index is a key-addressed collection of records; uploading a
document replaces the record holding the same `id` key (upsert). -/

/-- The `id` key of a record. -/
def recId (r : Record) : Option Val := getField r "id"

/-- The remote search index contents. -/
abbrev IndexState := List Record

/-- Backend upsert by the `id` key: the stored record with the same id, if
any, is replaced by the incoming one. -/
def upsertByKey (st : IndexState) (r : Record) : IndexState :=
  st.filter (fun x => decide (recId x ≠ recId r)) ++ [r]

/-- Number of stored records carrying a given id. -/
def recsWithId (st : IndexState) (v : Option Val) : Nat :=
  st.countP (fun r => decide (recId r = v))

/-! ## cognitive_search.py: DocumentSearchIndex operations

The SDK calls (`search_client.upload_documents`, `.search`, `.get_document`,
`.get_document_count`, `index_client.create_index`) are passed in as
Except-valued parameters; `.error` is a raised exception.  Operations that
submit documents also return the list of batches handed to the backend, so
that "never submits" facts are provable. -/

/-- The required fields checked by index_document. -/
def required_fields : List String := ["id", "filename", "content"]

/-- DocumentSearchIndex.index_document: raises (then catches, returning
False) when a required field is missing, before any backend call; otherwise
submits the one-record batch and reports the first per-item acknowledgment.
Second component: the batches submitted to the backend. -/
def index_document (upload : List Record → Except Unit (List Bool))
    (document_data : Record) : Bool × List (List Record) :=
  if required_fields.all (fun f => hasField document_data f) then
    match upload [document_data] with
    | .error _ => (false, [[document_data]])
    | .ok [] => (false, [[document_data]])
    | .ok (b :: _) => (b, [[document_data]])
  else (false, [])

/-- DocumentSearchIndex.index_documents_batch: empty input returns 0 without
calling the backend; a raised batch call is caught and returns 0;
otherwise the count of per-item acknowledged successes. -/
def index_documents_batch (upload : List Record → Except Unit (List Bool))
    (documents_data : List Record) : Nat × List (List Record) :=
  if documents_data.isEmpty then (0, [])
  else
    match upload documents_data with
    | .error _ => (0, [documents_data])
    | .ok results => (results.countP (fun b => b), [documents_data])

/-- DocumentSearchIndex.search_documents: any raised backend error is caught
and an empty list returned. -/
def search_documents (backend : String → Nat → Except Unit (List Record))
    (query : String) (top : Nat) : List Record :=
  match backend query top with
  | .ok results => results
  | .error _ => []

/-- The two classes of exception from get_document: ResourceNotFoundError
and everything else. -/
inductive GetErr where
  | resourceNotFound
  | other
deriving DecidableEq

/-- DocumentSearchIndex.get_document_by_id: None both on not-found and on
any other error. -/
def get_document_by_id (backend : String → Except GetErr Record)
    (document_id : String) : Option Record :=
  match backend document_id with
  | .ok r => some r
  | .error .resourceNotFound => none
  | .error .other => none

/-- The statistics dict returned by get_index_statistics. -/
structure IndexStats where
  document_count : Nat
  index_name : String
deriving DecidableEq

/-- DocumentSearchIndex.get_index_statistics: document count from the
backend, or 0 when the call raises. -/
def get_index_statistics (backend : Except Unit Nat) (index_name : String) :
    IndexStats :=
  match backend with
  | .ok n => ⟨n, index_name⟩
  | .error _ => ⟨0, index_name⟩

/-! ## ensure-index / ensure-container (create-if-absent state machines)

Azure create calls fail with ResourceExistsError and leave the service
unchanged when the resource already exists; otherwise they add an empty
resource. -/

/-- An SDK exception from a create call. -/
inductive AzureErr where
  | resourceExists
  | other
deriving DecidableEq

/-- Remote search service state: index name → stored records. -/
structure SearchServiceState where
  indexes : List (String × List Record)
deriving DecidableEq

/-- index_client.create_index backend semantics. -/
def create_index (st : SearchServiceState) (name : String) :
    Except AzureErr SearchServiceState :=
  if st.indexes.any (fun p => p.1 = name) then .error .resourceExists
  else .ok ⟨st.indexes ++ [(name, [])]⟩

/-- DocumentSearchIndex._ensure_index_exists: ResourceExistsError is
treated as success; any other exception is re-raised. -/
def ensure_index_exists (st : SearchServiceState) (name : String) :
    Except AzureErr SearchServiceState :=
  match create_index st name with
  | .ok st2 => .ok st2
  | .error .resourceExists => .ok st
  | .error e => .error e

/-- Remote blob service state: container name → (blob name, bytes). -/
structure BlobServiceState where
  containers : List (String × List (String × List Nat))
deriving DecidableEq

/-- blob_service_client.create_container backend semantics. -/
def create_container (st : BlobServiceState) (name : String) :
    Except AzureErr BlobServiceState :=
  if st.containers.any (fun p => p.1 = name) then .error .resourceExists
  else .ok ⟨st.containers ++ [(name, [])]⟩

/-- DocumentStorage._ensure_container_exists: only ResourceExistsError is
caught (treated as success); anything else propagates. -/
def ensure_container_exists (st : BlobServiceState) (name : String) :
    Except AzureErr BlobServiceState :=
  match create_container st name with
  | .ok st2 => .ok st2
  | .error .resourceExists => .ok st
  | .error e => .error e

/-! ## main.py: LegalDocumentChatbot

Per-file effects (what the file system and the injected storage / search
backends would answer for one file) are gathered in a `FileEnv`; a
directory is an environment assigning a `FileEnv` to each listed name. -/

/-- LegalDocumentChatbot._generate_document_id:
hashlib.md5(filename.encode()).hexdigest(). -/
def generate_document_id (filename : String) : String :=
  md5Hex (utf8Encode filename)

/-- LegalDocumentChatbot._extract_text_content, with the file read
(`open(...).read()`, UTF-8) passed in as an Except value; a raised read
error is caught and turned into the error placeholder. -/
def extract_text_content (readFile : Except Unit String) (file_path : String) :
    String :=
  let filename_lower := strLower file_path
  if strEndsWith filename_lower ".txt" || strEndsWith filename_lower ".md" then
    match readFile with
    | .ok text => text
    | .error _ => "Error extracting content from " ++ basename file_path
  else if strEndsWith filename_lower ".pdf" then
    "PDF content from " ++ basename file_path ++
      " - Content extraction not implemented yet"
  else
    "Content from " ++ basename file_path ++
      " - File type not supported for text extraction"

/-- The per-file environment: what the OS and the injected backends answer
for this file. -/
structure FileEnv where
  /-- os.path.isfile -/
  isFile : Bool
  /-- os.path.exists -/
  pathExists : Bool
  /-- whether the blob put of the real storage adapter succeeds -/
  uploadOk : Bool
  /-- storage.upload_document result for the chatbot pipeline (injected storage) -/
  uploadResult : Except Unit String
  /-- storage.get_document_url -/
  urlOf : String → String
  /-- os.path.getsize -/
  sizeResult : Except Unit Nat
  /-- open(file).read() -/
  readResult : Except Unit String
  /-- datetime.utcnow().isoformat() -/
  now : String
  /-- search_client.upload_documents of the injected search index -/
  upload_documents : List Record → Except Unit (List Bool)

/-- Python `summary or default` (empty string is falsy). -/
def pyOrStr (v : Option String) (d : String) : String :=
  match v with
  | none => d
  | some s => if s = "" then d else s

/-- Python `keywords or []`. -/
def pyOrList (v : Option (List String)) : List String :=
  match v with
  | none => []
  | some ks => ks

/-- The `document_data` dict built in upload_and_index_document
(main.py lines 94-108), in source order. -/
def build_document_data (fe : FileEnv) (file_path blob_name : String)
    (file_size : Nat) (summary : Option String)
    (keywords : Option (List String)) : Record :=
  let filename := basename file_path
  let file_extension := strLower (extOf filename)
  [("id", Val.str (generate_document_id filename)),
   ("filename", Val.str filename),
   ("content", Val.str (extract_text_content fe.readResult file_path)),
   ("file_type", Val.str file_extension),
   ("upload_date", Val.str (fe.now ++ "Z")),
   ("file_size", Val.num file_size),
   ("blob_url", Val.str (fe.urlOf blob_name)),
   ("summary", Val.str (pyOrStr summary ("Legal document: " ++ filename))),
   ("keywords", Val.strList (pyOrList keywords))]

/-- A pipeline stage being entered. -/
inductive Event where
  | upload
  | extract
  | index
deriving DecidableEq

/-- LegalDocumentChatbot.upload_and_index_document: blob upload first, then
metadata assembly (which performs text extraction), then the index write;
any raised exception is caught and the call returns False.  The second
component records, in order, the stages that were entered. -/
def upload_and_index_document (fe : FileEnv) (file_path : String)
    (summary : Option String) (keywords : Option (List String)) :
    Bool × List Event :=
  match fe.uploadResult with
  | .error _ => (false, [Event.upload])
  | .ok blob_name =>
    match fe.sizeResult with
    | .error _ => (false, [Event.upload])
    | .ok file_size =>
      let document_data :=
        build_document_data fe file_path blob_name file_size summary keywords
      let success := (index_document fe.upload_documents document_data).1
      (success, [Event.upload, Event.extract, Event.index])

/-- The three counters returned by upload_and_index_directory. -/
structure DirCounts where
  successful : Nat
  failed : Nat
  skipped : Nat
deriving DecidableEq

/-- The supported extension set of main.py / blob_storage.py. -/
def supported_extensions : List String := [".pdf", ".txt", ".doc", ".docx", ".md"]

/-- One iteration of the upload_and_index_directory loop. -/
def dir_step (env : String → FileEnv) (dirPath : String)
    (results : DirCounts) (filename : String) : DirCounts :=
  let fe := env filename
  if ¬ fe.isFile then results
  else if ¬ supported_extensions.contains (strLower (extOf filename)) then
    { results with skipped := results.skipped + 1 }
  else if (upload_and_index_document fe (dirPath ++ "/" ++ filename)
      none none).1 then
    { results with successful := results.successful + 1 }
  else
    { results with failed := results.failed + 1 }

/-- LegalDocumentChatbot.upload_and_index_directory over the os.listdir
result of an existing directory. -/
def upload_and_index_directory (env : String → FileEnv) (dirPath : String)
    (names : List String) : DirCounts :=
  names.foldl (dir_step env dirPath) ⟨0, 0, 0⟩

/-- How the directory loop disposes of one listed name. -/
inductive FileOutcome where
  | succeeded
  | failed
  | skipped
  | ignored
deriving DecidableEq

/-- The disposition of one listed name (ignored = not a regular file). -/
def classify_file (env : String → FileEnv) (dirPath filename : String) :
    FileOutcome :=
  let fe := env filename
  if ¬ fe.isFile then .ignored
  else if ¬ supported_extensions.contains (strLower (extOf filename)) then
    .skipped
  else if (upload_and_index_document fe (dirPath ++ "/" ++ filename)
      none none).1 then
    .succeeded
  else .failed

/-! ## blob_storage.py / mock_storage.py: directory upload -/

namespace DocumentStorage

/-- DocumentStorage.upload_document: FileNotFoundError when the path does
not exist; blob name defaults to the base filename; a failed put raises. -/
def upload_document (fe : FileEnv) (file_path : String)
    (blob_name : Option String) : Except Unit String :=
  if ¬ fe.pathExists then .error ()
  else
    let b := match blob_name with
      | none => basename file_path
      | some bn => bn
    if fe.uploadOk then .ok b else .error ()

/-- One iteration of DocumentStorage.upload_documents_from_directory. -/
def dir_upload_step (env : String → FileEnv) (dirPath : String)
    (uploaded_blobs : List String) (filename : String) : List String :=
  let fe := env filename
  if ¬ fe.isFile then uploaded_blobs
  else if ¬ supported_extensions.contains (strLower (extOf filename)) then
    uploaded_blobs
  else
    match upload_document fe (dirPath ++ "/" ++ filename) none with
    | .ok blob_name => uploaded_blobs ++ [blob_name]
    | .error _ => uploaded_blobs

/-- DocumentStorage.upload_documents_from_directory: immediate children
only; skips non-files and unsupported extensions; a per-file upload
exception is caught and the file left out of the result. -/
def upload_documents_from_directory (env : String → FileEnv)
    (dirPath : String) (names : List String) : List String :=
  names.foldl (dir_upload_step env dirPath) []

end DocumentStorage

namespace MockDocumentStorage

/-- MockDocumentStorage.upload_document: FileNotFoundError when the path
does not exist; otherwise records the (deduplicated) name in the in-memory
list and returns the blob name.  State is the _documents list. -/
def upload_document (st : List String) (fe : FileEnv) (file_path : String)
    (blob_name : Option String) : Except Unit (String × List String) :=
  if ¬ fe.pathExists then .error ()
  else
    let b := match blob_name with
      | none => basename file_path
      | some bn => bn
    .ok (b, if st.contains b then st else st ++ [b])

/-- One iteration of MockDocumentStorage.upload_documents_from_directory. -/
def dir_upload_step (env : String → FileEnv) (dirPath : String)
    (acc : List String × List String) (filename : String) :
    List String × List String :=
  let fe := env filename
  if fe.isFile then
    match upload_document acc.2 fe (dirPath ++ "/" ++ filename) none with
    | .ok (b, st2) => (acc.1 ++ [b], st2)
    | .error _ => acc
  else acc

/-- MockDocumentStorage.upload_documents_from_directory: immediate children
only, skips non-files, catches per-file failures; no extension filter. -/
def upload_documents_from_directory (env : String → FileEnv)
    (dirPath : String) (names : List String) (st : List String) :
    List String × List String :=
  names.foldl (dir_upload_step env dirPath) ([], st)

end MockDocumentStorage

/-! ## config.py and the chatbot constructor -/

/-- The environment-derived configuration (config.py). -/
structure Config where
  storage_connection_string : Option String
  storage_container_name : String
  search_service_endpoint : Option String
  search_api_key : Option String
  search_index_name : String

/-- Python truthiness of an optional environment string (None and the
empty string are falsy). -/
def truthyOpt : Option String → Bool
  | none => false
  | some s => if s = "" then false else true

/-- Config.validate_storage_config. -/
def validate_storage_config (c : Config) : Bool :=
  truthyOpt c.storage_connection_string

/-- Config.validate_search_config: bool(endpoint and api_key). -/
def validate_search_config (c : Config) : Bool :=
  truthyOpt c.search_service_endpoint && truthyOpt c.search_api_key

/-- The exceptions LegalDocumentChatbot.__init__ can surface. -/
inductive InitError where
  | searchConfigMissing
  | storageConfigMissing
  | backendFailure
deriving DecidableEq

/-- LegalDocumentChatbot.__init__ over abstract storage (σ) and search
index (ι) instances; mkStorage / mkSearchIndex are the constructions of
the real adapters (which may raise from their backend calls). -/
def chatbot_init {σ ι : Type} (c : Config) (storage : Option σ)
    (search_index : Option ι) (mkStorage : Except Unit σ)
    (mkSearchIndex : Except Unit ι) : Except InitError (σ × ι) :=
  if ¬ validate_search_config c then .error .searchConfigMissing
  else
    match storage with
    | some st =>
      (match search_index with
       | some idx => .ok (st, idx)
       | none =>
         match mkSearchIndex with
         | .ok idx => .ok (st, idx)
         | .error _ => .error .backendFailure)
    | none =>
      if validate_storage_config c then
        match mkStorage with
        | .error _ => .error .backendFailure
        | .ok st =>
          match search_index with
          | some idx => .ok (st, idx)
          | none =>
            match mkSearchIndex with
            | .ok idx => .ok (st, idx)
            | .error _ => .error .backendFailure
      else .error .storageConfigMissing

/-! ## Concrete environments used by witnesses and counterexamples -/

/-- A fully successful per-file environment. -/
def defaultFileEnv : FileEnv :=
  { isFile := true, pathExists := true, uploadOk := true,
    uploadResult := .ok "contract.txt", urlOf := fun b => "https://x/" ++ b,
    sizeResult := .ok 10, readResult := .ok "hello world", now := "2024-01-01T00:00:00",
    upload_documents := fun _ => .ok [true] }

/-! ## Claims -/

/-- Claim C3: text extraction is a total function of the path and the read
outcome: .txt/.md yield the read text verbatim (or the read-error
placeholder), .pdf a fixed placeholder naming the file, anything else an
unsupported-type placeholder naming the file; and the per-file ingestion
still proceeds to the index stage with the extraction result as the
content field, whatever the read outcome was. -/
theorem C3_extraction_total (read : Except Unit String) (p : String) :
    ((strEndsWith (strLower p) ".txt" || strEndsWith (strLower p) ".md") = true →
      extract_text_content read p =
        match read with
        | .ok text => text
        | .error _ => "Error extracting content from " ++ basename p)
    ∧ ((strEndsWith (strLower p) ".txt" || strEndsWith (strLower p) ".md") = false →
       strEndsWith (strLower p) ".pdf" = true →
      extract_text_content read p =
        "PDF content from " ++ basename p ++
          " - Content extraction not implemented yet")
    ∧ ((strEndsWith (strLower p) ".txt" || strEndsWith (strLower p) ".md") = false →
       strEndsWith (strLower p) ".pdf" = false →
      extract_text_content read p =
        "Content from " ++ basename p ++
          " - File type not supported for text extraction")
    ∧ (∀ (fe : FileEnv) (bn : String) (sz : Nat),
        fe.uploadResult = .ok bn → fe.sizeResult = .ok sz → fe.readResult = read →
        (upload_and_index_document fe p none none).2
            = [Event.upload, Event.extract, Event.index]
        ∧ getField (build_document_data fe p bn sz none none) "content"
            = some (Val.str (extract_text_content read p))) := by
  refine ⟨?_, ?_, ?_, ?_⟩
  · intro h
    cases read <;> simp [extract_text_content, h]
  · intro h1 h2
    simp [extract_text_content, h1, h2]
  · intro h1 h2
    simp [extract_text_content, h1, h2]
  · intro fe bn sz h1 h2 h3
    constructor
    · simp [upload_and_index_document, h1, h2]
    · simp [build_document_data, getField, h3]

/-- Witness for C3 at the concrete file brief.pdf with a failing read. -/
theorem C3_witness :
    extract_text_content (.error ()) "docs/brief.pdf" =
      "PDF content from brief.pdf - Content extraction not implemented yet" := by
  have h := (C3_extraction_total (.error ()) "docs/brief.pdf").2.1
    (by decide) (by decide)
  simpa using h

/-- Claim C4 counterexample: on a fully successful run the pipeline enters
its stages in the order upload, extraction, index — not extraction first
as the claimed state machine PENDING -> EXTRACTING -> UPLOADING ->
INDEXING requires. -/
theorem C4_counterexample :
    (upload_and_index_document defaultFileEnv "contract.txt" none none).2
        = [Event.upload, Event.extract, Event.index]
    ∧ [Event.upload, Event.extract, Event.index]
        ≠ [Event.extract, Event.upload, Event.index] := by
  exact ⟨rfl, by decide⟩

/-- Claim C4 (amended): the per-file pipeline performs blob upload first,
then text extraction (during record assembly), then the index write, each
stage completing before the next begins; when the upload or the size probe
raises, the later stages are not entered. -/
theorem C4_upload_then_extract_then_index (fe : FileEnv) (p : String)
    (s : Option String) (k : Option (List String)) :
    (upload_and_index_document fe p s k).2 = [Event.upload]
    ∨ (upload_and_index_document fe p s k).2
        = [Event.upload, Event.extract, Event.index] := by
  cases h1 : fe.uploadResult with
  | error e => left; simp [upload_and_index_document, h1]
  | ok bn =>
    cases h2 : fe.sizeResult with
    | error e => left; simp [upload_and_index_document, h1, h2]
    | ok sz => right; simp [upload_and_index_document, h1, h2]

/-- Claim C5: the single-document upsert returns false without any backend
submission when a required field (id, filename, content) is missing, and
otherwise submits exactly the one-record batch and reports the backend's
first per-item acknowledgment. -/
theorem C5_upsert_one_checks_required_fields
    (upload : List Record → Except Unit (List Bool)) (doc : Record) :
    (required_fields.all (fun f => hasField doc f) = false →
        index_document upload doc = (false, []))
    ∧ (required_fields.all (fun f => hasField doc f) = true →
        index_document upload doc =
          ((match upload [doc] with
            | .ok (b :: _) => b
            | .ok [] => false
            | .error _ => false), [[doc]])) := by
  constructor
  · intro h
    simp [index_document, h]
  · intro h
    cases hu : upload [doc] with
    | error e => simp [index_document, h, hu]
    | ok acks => cases acks <;> simp [index_document, h, hu]

/-- Witness for C5: a record missing the content field is rejected without
reaching the backend. -/
theorem C5_witness :
    index_document (fun _ => .ok [true])
        [("id", Val.str "k"), ("filename", Val.str "f.txt")] = (false, []) :=
  (C5_upsert_one_checks_required_fields (fun _ => .ok [true])
    [("id", Val.str "k"), ("filename", Val.str "f.txt")]).1 (by decide)

/-- Claim C6: the batch upsert returns the count of per-item acknowledged
successes, 0 on an empty input (without calling the backend) and 0 when
the batch call raises; with a full acknowledgment list containing exactly
one failure the count is one less than the input length. -/
theorem C6_upsert_many_counts
    (upload : List Record → Except Unit (List Bool))
    (docs : List Record) :
    (docs = [] → index_documents_batch upload docs = (0, []))
    ∧ (∀ e, upload docs = .error e → docs ≠ [] →
        index_documents_batch upload docs = (0, [docs]))
    ∧ (∀ acks, upload docs = .ok acks → docs ≠ [] →
        index_documents_batch upload docs = (acks.countP (fun b => b), [docs]))
    ∧ (∀ acks, upload docs = .ok acks → acks.length = docs.length →
        acks.countP (fun b => !b) = 1 →
        (index_documents_batch upload docs).1 = docs.length - 1) := by
  refine ⟨?_, ?_, ?_, ?_⟩
  · intro h
    simp [index_documents_batch, h]
  · intro e he hne
    simp [index_documents_batch, List.isEmpty_iff, hne, he]
  · intro acks ha hne
    simp [index_documents_batch, List.isEmpty_iff, hne, ha]
  · intro acks ha hlen hone
    have hne : docs ≠ [] := by
      intro h
      subst h
      have hzero : acks = [] := List.length_eq_zero.mp (by simpa using hlen)
      subst hzero
      simp [List.countP, List.countP.go] at hone
    have hcount : acks.length = acks.countP (fun b => b) + acks.countP (fun b => !b) := by
      simpa using List.length_eq_countP_add_countP (fun b => b) acks
    simp [index_documents_batch, List.isEmpty_iff, hne, ha]
    omega

/-- Witness for C6: a two-record batch whose second record is missing the
content field yields count 1 = 2 - 1 under a backend acknowledging exactly
the valid record. -/
theorem C6_witness :
    (index_documents_batch
        (fun ds => .ok (ds.map (fun d => required_fields.all (fun f => hasField d f))))
        [[("id", Val.str "a"), ("filename", Val.str "a.txt"), ("content", Val.str "x")],
         [("id", Val.str "b"), ("filename", Val.str "b.txt")]]).1 = 2 - 1 :=
  (C6_upsert_many_counts
    (fun ds => .ok (ds.map (fun d => required_fields.all (fun f => hasField d f))))
    [[("id", Val.str "a"), ("filename", Val.str "a.txt"), ("content", Val.str "x")],
     [("id", Val.str "b"), ("filename", Val.str "b.txt")]]).2.2.2
    [true, false] rfl (by decide) (by decide)

/-- Claim C7: the query-like reads swallow backend errors: search returns
[] on a raised error (and at most top records when the backend honors
top), get-by-id returns none both on not-found and on any other error,
count statistics degrade to 0 — so an empty result and a backend failure
are indistinguishable by return value. -/
theorem C7_reads_swallow_errors
    (sb : String → Nat → Except Unit (List Record))
    (gb : String → Except GetErr Record) (cb : Except Unit Nat)
    (q nm did : String) (top : Nat) :
    (∀ e, sb q top = .error e → search_documents sb q top = [])
    ∧ (∀ rs, sb q top = .ok rs → search_documents sb q top = rs)
    ∧ ((∀ rs, sb q top = .ok rs → rs.length ≤ top) →
        (search_documents sb q top).length ≤ top)
    ∧ (∀ e, gb did = .error e → get_document_by_id gb did = none)
    ∧ (∀ e, cb = .error e → (get_index_statistics cb nm).document_count = 0)
    ∧ search_documents (fun _ _ => .error ()) q top
        = search_documents (fun _ _ => .ok []) q top
    ∧ get_document_by_id (fun _ => .error GetErr.other) did
        = get_document_by_id (fun _ => .error GetErr.resourceNotFound) did
    ∧ get_index_statistics (.error ()) nm = get_index_statistics (.ok 0) nm := by
  refine ⟨?_, ?_, ?_, ?_, ?_, rfl, rfl, rfl⟩
  · intro e he
    simp [search_documents, he]
  · intro rs hrs
    simp [search_documents, hrs]
  · intro h
    cases hb : sb q top with
    | error e => simp [search_documents, hb]
    | ok rs => simpa [search_documents, hb] using h rs hb
  · intro e he
    cases e <;> simp [get_document_by_id, he]
  · intro e he
    simp [get_index_statistics, he]

/-- Witness for C7 at concrete failing backends. -/
theorem C7_witness :
    search_documents (fun _ _ => .error ()) "contract" 5 = [] :=
  (C7_reads_swallow_errors (fun _ _ => .error ()) (fun _ => .error .other)
    (.error ()) "contract" "idx" "doc1" 5).1 () rfl

/-- Claim C8: ensure_container and ensure_index are idempotent: whenever a
call succeeds, an immediate second call succeeds too (already-exists is
treated as success) and leaves the service state — hence all existing
container and index contents — unchanged. -/
theorem C8_ensure_idempotent (bst : BlobServiceState) (cname : String)
    (sst : SearchServiceState) (iname : String) :
    (∀ bst1, ensure_container_exists bst cname = .ok bst1 →
        ensure_container_exists bst1 cname = .ok bst1
        ∧ ∀ c, c ∈ bst.containers → c ∈ bst1.containers)
    ∧ (∀ sst1, ensure_index_exists sst iname = .ok sst1 →
        ensure_index_exists sst1 iname = .ok sst1
        ∧ ∀ i, i ∈ sst.indexes → i ∈ sst1.indexes) := by
  constructor
  · intro bst1 h
    by_cases hc : bst.containers.any (fun p => decide (p.1 = cname)) = true
    · simp [ensure_container_exists, create_container, hc] at h
      subst h
      simp [ensure_container_exists, create_container, hc]
    · simp [ensure_container_exists, create_container, hc] at h
      subst h
      constructor
      · have : (bst.containers ++ [(cname, [])]).any (fun p => decide (p.1 = cname)) = true := by
          simp
        simp [ensure_container_exists, create_container, this]
      · intro c hc2
        simp [hc2]
  · intro sst1 h
    by_cases hc : sst.indexes.any (fun p => decide (p.1 = iname)) = true
    · simp [ensure_index_exists, create_index, hc] at h
      subst h
      simp [ensure_index_exists, create_index, hc]
    · simp [ensure_index_exists, create_index, hc] at h
      subst h
      constructor
      · have : (sst.indexes ++ [(iname, [])]).any (fun p => decide (p.1 = iname)) = true := by
          simp
        simp [ensure_index_exists, create_index, this]
      · intro i hi
        simp [hi]

/-- Witness for C8 on a concrete empty service state. -/
theorem C8_witness :
    ensure_container_exists ⟨[("legal-documents", [])]⟩ "legal-documents"
      = .ok ⟨[("legal-documents", [])]⟩ :=
  ((C8_ensure_idempotent ⟨[]⟩ "legal-documents" ⟨[]⟩ "legal-documents-index").1
    ⟨[("legal-documents", [])]⟩ rfl).1

/-- Claim C10: the constructor always raises the search configuration
error when the search group is not usable, even with an injected search
index; with an injected storage instance the outcome does not depend on
the storage configuration at all, and with both instances injected and a
usable search configuration it succeeds. -/
theorem C10_init_requires_search_config (σ ι : Type) (c c1 c2 : Config)
    (st : σ) (storage : Option σ) (search_index : Option ι)
    (ms : Except Unit σ) (mi : Except Unit ι) :
    (validate_search_config c = false →
        chatbot_init c storage search_index ms mi = .error .searchConfigMissing)
    ∧ (c1.search_service_endpoint = c2.search_service_endpoint →
       c1.search_api_key = c2.search_api_key →
       chatbot_init c1 (some st) search_index ms mi
         = chatbot_init c2 (some st) search_index ms mi)
    ∧ (validate_search_config c = true →
        ∀ idx : ι, chatbot_init c (some st) (some idx) ms mi = .ok (st, idx)) := by
  refine ⟨?_, ?_, ?_⟩
  · intro h
    simp [chatbot_init, h]
  · intro h1 h2
    have hv : validate_search_config c1 = validate_search_config c2 := by
      simp [validate_search_config, h1, h2]
    by_cases h : validate_search_config c1 = true
    · simp [chatbot_init, h, hv ▸ h]
    · have h2f : validate_search_config c2 = false := by
        rw [← hv]; simpa using h
      simp [chatbot_init, Bool.eq_false_iff.mpr h, h2f]
  · intro h idx
    simp [chatbot_init, h]

/-- Witness for C10: an injected search index does not save a missing
search configuration, and injected instances succeed without storage
configuration. -/
theorem C10_witness :
    chatbot_init ⟨none, "legal-documents", none, none, "idx"⟩
        (some ()) (some ()) (.ok ()) (.ok ())
      = .error InitError.searchConfigMissing :=
  (C10_init_requires_search_config Unit Unit
    ⟨none, "legal-documents", none, none, "idx"⟩
    ⟨none, "legal-documents", none, none, "idx"⟩
    ⟨none, "legal-documents", none, none, "idx"⟩
    () (some ()) (some ()) (.ok ()) (.ok ())).1 (by decide)

/-! ## Helper lemmas -/

/-- Filtering for a key after having filtered it away yields nothing. -/
theorem filter_ne_then_eq (v : Option Val) (l : IndexState) :
    (l.filter (fun x => decide (recId x ≠ v))).filter
        (fun x => decide (recId x = v)) = [] := by
  induction l with
  | nil => rfl
  | cons a t ih =>
    by_cases h : recId a = v
    · simp [List.filter_cons, h, ih]
    · simp [List.filter_cons, h, ih]

/-- Claim C1: the document id is the MD5 hex digest of the base filename
alone — records built from two paths with the same base name carry the
same id whatever their content, sizes or URLs are — and two key-based
upserts with the same id leave exactly one record under that id, the
second one (replace, not append). -/
theorem C1_document_id_pure (fe1 fe2 : FileEnv) (p1 p2 bn1 bn2 : String)
    (sz1 sz2 : Nat) (sm1 sm2 : Option String) (kw1 kw2 : Option (List String))
    (st : IndexState) (r1 r2 : Record)
    (hb : basename p1 = basename p2) (hid : recId r1 = recId r2) :
    getField (build_document_data fe1 p1 bn1 sz1 sm1 kw1) "id"
        = some (Val.str (md5Hex (utf8Encode (basename p1))))
    ∧ getField (build_document_data fe1 p1 bn1 sz1 sm1 kw1) "id"
        = getField (build_document_data fe2 p2 bn2 sz2 sm2 kw2) "id"
    ∧ (upsertByKey (upsertByKey st r1) r2).filter
        (fun x => decide (recId x = recId r2)) = [r2]
    ∧ recsWithId (upsertByKey (upsertByKey st r1) r2) (recId r2) = 1 := by
  have hid1 : ∀ (fe : FileEnv) (p bn : String) (sz : Nat) (sm : Option String)
      (kw : Option (List String)),
      getField (build_document_data fe p bn sz sm kw) "id"
        = some (Val.str (generate_document_id (basename p))) :=
    fun _ _ _ _ _ _ => rfl
  have hfilter : (upsertByKey (upsertByKey st r1) r2).filter
      (fun x => decide (recId x = recId r2)) = [r2] := by
    simp only [upsertByKey, List.filter_append]
    rw [hid]
    simp [filter_ne_then_eq (recId r2) st]
  refine ⟨rfl, ?_, hfilter, ?_⟩
  · rw [hid1, hid1, hb]
  · rw [recsWithId, List.countP_eq_length_filter, hfilter]
    rfl

/-- Witness for C1: two paths sharing the base name contract.txt get equal
ids, and upserting two same-id records into an empty index leaves one. -/
theorem C1_witness :
    getField (build_document_data defaultFileEnv "docs/contract.txt" "b1" 1
        none none) "id"
      = getField (build_document_data defaultFileEnv "other/contract.txt" "b2" 2
        none none) "id"
    ∧ recsWithId
        (upsertByKey (upsertByKey [] [("id", Val.str "k"), ("v", Val.num 1)])
          [("id", Val.str "k"), ("v", Val.num 2)])
        (recId [("id", Val.str "k"), ("v", Val.num 2)]) = 1 := by
  have h := C1_document_id_pure defaultFileEnv defaultFileEnv
    "docs/contract.txt" "other/contract.txt" "b1" "b2" 1 2 none none none none
    [] [("id", Val.str "k"), ("v", Val.num 1)]
    [("id", Val.str "k"), ("v", Val.num 2)] (by decide) (by decide)
  exact ⟨h.2.1, h.2.2.2⟩

/-- Totals of the directory loop, with an arbitrary starting accumulator. -/
theorem dir_counts_foldl (env : String → FileEnv) (dirPath : String) :
    ∀ (names : List String) (acc : DirCounts),
      names.foldl (dir_step env dirPath) acc =
        ⟨acc.successful +
            names.countP (fun n => decide (classify_file env dirPath n = .succeeded)),
         acc.failed +
            names.countP (fun n => decide (classify_file env dirPath n = .failed)),
         acc.skipped +
            names.countP (fun n => decide (classify_file env dirPath n = .skipped))⟩ := by
  intro names
  induction names with
  | nil => intro acc; simp
  | cons n t ih =>
    intro acc
    rw [List.foldl_cons, ih]
    simp only [List.countP_cons]
    by_cases h1 : (env n).isFile = true
    · by_cases h2 : strLower (extOf n) ∈ supported_extensions
      · by_cases h3 : (upload_and_index_document (env n) (dirPath ++ "/" ++ n)
            none none).1 = true
        · simp [dir_step, classify_file, h1, h2, h3, DirCounts.mk.injEq]
          omega
        · simp [dir_step, classify_file, h1, h2, h3, DirCounts.mk.injEq]
          omega
      · simp [dir_step, classify_file, h1, h2, DirCounts.mk.injEq]
        omega
    · simp [dir_step, classify_file, h1, DirCounts.mk.injEq]

/-- Claim C2: for an existing directory the orchestrator's loop is total
and returns exactly the three counters, one per listed regular file of a
supported extension (directories are not counted); a file whose pipeline
reports failure — in particular any file whose upload raised — lands in
the failed counter and the remaining files are still processed. -/
theorem C2_directory_totals (env : String → FileEnv) (dirPath : String)
    (names : List String) :
    upload_and_index_directory env dirPath names =
      ⟨names.countP (fun n => decide (classify_file env dirPath n = .succeeded)),
       names.countP (fun n => decide (classify_file env dirPath n = .failed)),
       names.countP (fun n => decide (classify_file env dirPath n = .skipped))⟩
    ∧ (∀ n, (env n).isFile = true →
        strLower (extOf n) ∈ supported_extensions →
        (upload_and_index_document (env n) (dirPath ++ "/" ++ n) none none).1
            = false →
        classify_file env dirPath n = .failed)
    ∧ (∀ (fe : FileEnv) (p : String), fe.uploadResult.isOk = false →
        (upload_and_index_document fe p none none).1 = false) := by
  refine ⟨?_, ?_, ?_⟩
  · simpa using dir_counts_foldl env dirPath names ⟨0, 0, 0⟩
  · intro n h1 h2 h3
    simp [classify_file, h1, h2, h3]
  · intro fe p h
    cases hu : fe.uploadResult with
    | error e => simp [upload_and_index_document, hu]
    | ok bn => simp [hu, Except.isOk, Except.toBool] at h

/-- A directory with one good file, one file whose upload raises, one
unsupported file and one subdirectory. -/
def dirEnvC2 : String → FileEnv := fun n =>
  if n = "b.txt" then { defaultFileEnv with uploadResult := .error () }
  else if n = "sub" then { defaultFileEnv with isFile := false }
  else defaultFileEnv

/-- Witness for C2: the loop returns 1 successful, 1 failed, 1 skipped over
that directory, and the raising upload marks its file failed. -/
theorem C2_witness :
    upload_and_index_directory dirEnvC2 "d" ["a.txt", "b.txt", "c.bin", "sub"]
        = ⟨1, 1, 1⟩
    ∧ classify_file dirEnvC2 "d" "b.txt" = .failed := by
  have h := C2_directory_totals dirEnvC2 "d" ["a.txt", "b.txt", "c.bin", "sub"]
  refine ⟨?_, h.2.1 "b.txt" (by decide) (by decide) (by decide)⟩
  rw [h.1]
  decide

/-- Characters accumulated by the basename fold, when none is a slash. -/
theorem basename_foldl_chars (cs acc : List Char) (h : ∀ c ∈ cs, c ≠ '/') :
    cs.foldl (fun acc c => if c = '/' then [] else acc ++ [c]) acc
      = acc ++ cs := by
  induction cs generalizing acc with
  | nil => simp
  | cons c t ih =>
    have hc : c ≠ '/' := h c (List.mem_cons_self c t)
    rw [List.foldl_cons]
    simp only [hc, if_false]
    rw [ih (acc ++ [c]) (fun x hx => h x (List.mem_cons_of_mem _ hx))]
    simp

/-- basename of dir/name is name, when the name holds no slash. -/
theorem basename_join (d n : String) (h : ∀ c ∈ n.data, c ≠ '/') :
    basename (d ++ "/" ++ n) = n := by
  unfold basename
  rw [String.data_append, String.data_append]
  rw [List.foldl_append, List.foldl_append]
  have h1 : List.foldl (fun acc c => if c = '/' then [] else acc ++ [c])
      (List.foldl (fun acc c => if c = '/' then [] else acc ++ [c])
        [] d.data) ("/").data = [] := by
    rfl
  rw [h1, basename_foldl_chars n.data [] h]
  rfl

/-- The mock directory upload returns every regular-file child. -/
theorem mock_dir_foldl (env : String → FileEnv) (dirPath : String) :
    ∀ (names : List String) (acc : List String × List String),
      (∀ n ∈ names, ∀ c ∈ n.data, c ≠ '/') →
      (∀ n, (env n).isFile = true → (env n).pathExists = true) →
      (names.foldl (MockDocumentStorage.dir_upload_step env dirPath) acc).1
        = acc.1 ++ names.filter (fun n => (env n).isFile) := by
  intro names
  induction names with
  | nil => intro acc hs hex; simp
  | cons n t ih =>
    intro acc hs hex
    rw [List.foldl_cons]
    have hs1 : ∀ c ∈ n.data, c ≠ '/' := hs n (List.mem_cons_self n t)
    have hst : ∀ m ∈ t, ∀ c ∈ m.data, c ≠ '/' :=
      fun m hm => hs m (List.mem_cons_of_mem _ hm)
    by_cases h1 : (env n).isFile = true
    · have hpe : (env n).pathExists = true := hex n h1
      have hstep : MockDocumentStorage.dir_upload_step env dirPath acc n
          = (acc.1 ++ [n], if acc.2.contains n then acc.2 else acc.2 ++ [n]) := by
        simp [MockDocumentStorage.dir_upload_step,
          MockDocumentStorage.upload_document, h1, hpe, basename_join dirPath n hs1]
      rw [hstep, ih _ hst hex]
      simp [List.filter_cons, h1]
    · have hstep : MockDocumentStorage.dir_upload_step env dirPath acc n = acc := by
        simp [MockDocumentStorage.dir_upload_step, h1]
      rw [hstep, ih _ hst hex]
      simp [List.filter_cons, h1]

/-- The real directory upload returns the supported files whose put
succeeded. -/
theorem real_dir_foldl (env : String → FileEnv) (dirPath : String) :
    ∀ (names : List String) (acc : List String),
      (∀ n ∈ names, ∀ c ∈ n.data, c ≠ '/') →
      (∀ n, (env n).isFile = true → (env n).pathExists = true) →
      names.foldl (DocumentStorage.dir_upload_step env dirPath) acc
        = acc ++ names.filter (fun n => (env n).isFile
            && supported_extensions.contains (strLower (extOf n))
            && (env n).uploadOk) := by
  intro names
  induction names with
  | nil => intro acc hs hex; simp
  | cons n t ih =>
    intro acc hs hex
    rw [List.foldl_cons]
    have hs1 : ∀ c ∈ n.data, c ≠ '/' := hs n (List.mem_cons_self n t)
    have hst : ∀ m ∈ t, ∀ c ∈ m.data, c ≠ '/' :=
      fun m hm => hs m (List.mem_cons_of_mem _ hm)
    by_cases h1 : (env n).isFile = true
    · by_cases h2 : strLower (extOf n) ∈ supported_extensions
      · have hpe : (env n).pathExists = true := hex n h1
        by_cases h3 : (env n).uploadOk = true
        · have hstep : DocumentStorage.dir_upload_step env dirPath acc n
              = acc ++ [n] := by
            simp [DocumentStorage.dir_upload_step,
              DocumentStorage.upload_document, h1, h2, h3, hpe,
              basename_join dirPath n hs1]
          rw [hstep, ih _ hst hex]
          simp [List.filter_cons, h1, h2, h3]
        · have hstep : DocumentStorage.dir_upload_step env dirPath acc n
              = acc := by
            simp [DocumentStorage.dir_upload_step,
              DocumentStorage.upload_document, h1, h2, h3, hpe]
          rw [hstep, ih _ hst hex]
          simp [List.filter_cons, h1, h2, h3]
      · have hstep : DocumentStorage.dir_upload_step env dirPath acc n = acc := by
          simp [DocumentStorage.dir_upload_step, h1, h2]
        rw [hstep, ih _ hst hex]
        simp [List.filter_cons, h1, h2]
    · have hstep : DocumentStorage.dir_upload_step env dirPath acc n = acc := by
        simp [DocumentStorage.dir_upload_step, h1]
      rw [hstep, ih _ hst hex]
      simp [List.filter_cons, h1]

/-- A directory holding the single regular file notes.xyz, whose upload
would succeed. -/
def mockCexEnv : String → FileEnv := fun _ => defaultFileEnv

/-- Claim C9 counterexample: on a directory whose only child is the
unsupported-extension file notes.xyz, the mock store uploads it while the
real adapter skips it, so the mock does not satisfy the claimed skip
behavior of the real adapter. -/
theorem C9_counterexample :
    (MockDocumentStorage.upload_documents_from_directory mockCexEnv "d"
        ["notes.xyz"] []).1 = ["notes.xyz"]
    ∧ DocumentStorage.upload_documents_from_directory mockCexEnv "d"
        ["notes.xyz"] = []
    ∧ (["notes.xyz"] : List String) ≠ [] := by
  refine ⟨by decide, by decide, by decide⟩

/-- Claim C9 (amended): the mock directory upload iterates immediate
children only, skips subdirectories, and per-file failures are excluded
without raising — but unlike the real adapter it applies no
supported-extension filter: it returns every regular-file child, while the
real adapter returns only the supported-extension children whose put
succeeded. -/
theorem C9_mock_uploads_every_file (env : String → FileEnv)
    (dirPath : String) (names : List String) (st : List String)
    (hs : ∀ n ∈ names, ∀ c ∈ n.data, c ≠ '/')
    (hex : ∀ n, (env n).isFile = true → (env n).pathExists = true) :
    (MockDocumentStorage.upload_documents_from_directory env dirPath names st).1
        = names.filter (fun n => (env n).isFile)
    ∧ DocumentStorage.upload_documents_from_directory env dirPath names
        = names.filter (fun n => (env n).isFile
            && supported_extensions.contains (strLower (extOf n))
            && (env n).uploadOk) := by
  constructor
  · simpa using mock_dir_foldl env dirPath names ([], st) hs hex
  · simpa using real_dir_foldl env dirPath names [] hs hex

/-- Witness for C9 (amended) on the notes.xyz directory. -/
theorem C9_witness :
    (MockDocumentStorage.upload_documents_from_directory mockCexEnv "d"
        ["notes.xyz", "memo.txt"] []).1 = ["notes.xyz", "memo.txt"] := by
  have h := C9_mock_uploads_every_file mockCexEnv "d" ["notes.xyz", "memo.txt"]
    [] (by decide) (fun n h => rfl)
  rw [h.1]
  decide

end Chatbot
